import Mathlib

/-!
Verification of the GltfToCocosMesh geometry core against its specification.

The development shallowly embeds the two source files:
  * `src/Geometry.ts` — geometry data model, normal/tangent generators,
    bounding-volume aggregator, lazy attribute synthesis;
  * the Cocos mesh container file (`CocosMeshMeta` / `CocosMesh`) — metadata
    setters and the interleaved vertex-buffer decoder.

JavaScript numbers are modelled by `XR`: a real number, `NaN`, or a signed
infinity.  Floating-point rounding is abstracted away (values are exact
reals), but the special values NaN and plus or minus infinity — which the
source manipulates through out-of-bounds typed-array reads, `isFinite`,
`Math.min` / `Math.max` and division by zero — are modelled faithfully.
A negative zero does not exist in this model; it is never distinguished
from zero by any code path embedded here (the sign of an infinite quotient
is never inspected, only its finiteness).
-/

/-- JavaScript number: NaN, a signed infinity, or a finite real value. -/
inductive XR where
  | nan : XR
  | ninf : XR
  | pinf : XR
  | fin (x : ℝ) : XR

noncomputable section

namespace XR

/-- JavaScript unary minus. -/
def neg : XR → XR
  | nan => nan
  | ninf => pinf
  | pinf => ninf
  | fin a => fin (-a)

/-- JavaScript addition on numbers (IEEE special-value rules, exact reals otherwise). -/
def add : XR → XR → XR
  | nan, _ => nan
  | _, nan => nan
  | pinf, ninf => nan
  | ninf, pinf => nan
  | pinf, _ => pinf
  | _, pinf => pinf
  | ninf, _ => ninf
  | _, ninf => ninf
  | fin a, fin b => fin (a + b)

/-- JavaScript subtraction: `a - b` behaves exactly as `a + (-b)` on every IEEE value. -/
def sub (a b : XR) : XR := add a (neg b)

/-- JavaScript multiplication (IEEE special-value rules, exact reals otherwise). -/
def mul : XR → XR → XR
  | nan, _ => nan
  | _, nan => nan
  | fin a, fin b => fin (a * b)
  | pinf, pinf => pinf
  | pinf, ninf => ninf
  | ninf, pinf => ninf
  | ninf, ninf => pinf
  | pinf, fin b => if b = 0 then nan else if 0 < b then pinf else ninf
  | fin a, pinf => if a = 0 then nan else if 0 < a then pinf else ninf
  | ninf, fin b => if b = 0 then nan else if 0 < b then ninf else pinf
  | fin a, ninf => if a = 0 then nan else if 0 < a then ninf else pinf

/-- JavaScript division (IEEE special-value rules; a nonzero value divided by
zero is an infinity, zero by zero is NaN). -/
def div : XR → XR → XR
  | nan, _ => nan
  | _, nan => nan
  | pinf, pinf => nan
  | pinf, ninf => nan
  | ninf, pinf => nan
  | ninf, ninf => nan
  | pinf, fin b => if 0 ≤ b then pinf else ninf
  | ninf, fin b => if 0 ≤ b then ninf else pinf
  | fin _, pinf => fin 0
  | fin _, ninf => fin 0
  | fin a, fin b =>
    if b = 0 then (if a = 0 then nan else if 0 < a then pinf else ninf)
    else fin (a / b)

/-- JavaScript `Math.sqrt`. -/
def sqrt : XR → XR
  | nan => nan
  | ninf => nan
  | pinf => pinf
  | fin a => if a < 0 then nan else fin (Real.sqrt a)

/-- JavaScript `<` comparison (false whenever an operand is NaN). -/
def lt : XR → XR → Bool
  | nan, _ => false
  | _, nan => false
  | ninf, ninf => false
  | ninf, _ => true
  | _, ninf => false
  | pinf, _ => false
  | _, pinf => true
  | fin a, fin b => decide (a < b)

/-- JavaScript `isFinite`. -/
def isFinite : XR → Bool
  | fin _ => true
  | _ => false

/-- JavaScript `Math.min` (NaN-propagating). -/
def jsMin : XR → XR → XR
  | nan, _ => nan
  | _, nan => nan
  | ninf, _ => ninf
  | _, ninf => ninf
  | pinf, b => b
  | a, pinf => a
  | fin a, fin b => fin (min a b)

/-- JavaScript `Math.max` (NaN-propagating). -/
def jsMax : XR → XR → XR
  | nan, _ => nan
  | _, nan => nan
  | pinf, _ => pinf
  | _, pinf => pinf
  | ninf, b => b
  | a, ninf => a
  | fin a, fin b => fin (max a b)

@[simp] theorem neg_fin (a : ℝ) : neg (fin a) = fin (-a) := rfl

@[simp] theorem add_fin_fin (a b : ℝ) : add (fin a) (fin b) = fin (a + b) := rfl

@[simp] theorem sub_fin_fin (a b : ℝ) : sub (fin a) (fin b) = fin (a + -b) := rfl

@[simp] theorem mul_fin_fin (a b : ℝ) : mul (fin a) (fin b) = fin (a * b) := rfl

theorem div_fin_fin (a b : ℝ) :
    div (fin a) (fin b) =
      if b = 0 then (if a = 0 then nan else if 0 < a then pinf else ninf)
      else fin (a / b) := rfl

@[simp] theorem div_fin_fin_of_ne (a b : ℝ) (hb : b ≠ 0) :
    div (fin a) (fin b) = fin (a / b) := by
  rw [div_fin_fin, if_neg hb]

@[simp] theorem sqrt_fin_of_nonneg (a : ℝ) (ha : 0 ≤ a) :
    sqrt (fin a) = fin (Real.sqrt a) := by
  show (if a < 0 then nan else fin (Real.sqrt a)) = fin (Real.sqrt a)
  rw [if_neg (not_lt.mpr ha)]

@[simp] theorem lt_fin_fin (a b : ℝ) : lt (fin a) (fin b) = decide (a < b) := rfl

@[simp] theorem isFinite_fin (a : ℝ) : isFinite (fin a) = true := rfl

@[simp] theorem isFinite_nan : isFinite nan = false := rfl

@[simp] theorem isFinite_pinf : isFinite pinf = false := rfl

@[simp] theorem isFinite_ninf : isFinite ninf = false := rfl

@[simp] theorem jsMin_fin_fin (a b : ℝ) : jsMin (fin a) (fin b) = fin (min a b) := rfl

@[simp] theorem jsMax_fin_fin (a b : ℝ) : jsMax (fin a) (fin b) = fin (max a b) := rfl

@[simp] theorem jsMin_pinf_left (b : XR) : jsMin pinf b = b := by
  cases b <;> rfl

@[simp] theorem jsMax_ninf_left (b : XR) : jsMax ninf b = b := by
  cases b <;> rfl

@[simp] theorem jsMin_fin_nan (a : ℝ) : jsMin (fin a) nan = nan := rfl

@[simp] theorem jsMax_fin_nan (a : ℝ) : jsMax (fin a) nan = nan := rfl

@[simp] theorem jsMin_nan_left (b : XR) : jsMin nan b = nan := by
  cases b <;> rfl

@[simp] theorem jsMax_nan_left (b : XR) : jsMax nan b = nan := by
  cases b <;> rfl

end XR

/-- gl-matrix `vec2` (a pair of JavaScript numbers). -/
structure V2 where
  x : XR
  y : XR

/-- gl-matrix `vec3` (a triple of JavaScript numbers). -/
structure V3 where
  x : XR
  y : XR
  z : XR

/-- gl-matrix `vec4` (a quadruple of JavaScript numbers). -/
structure V4 where
  x : XR
  y : XR
  z : XR
  w : XR

/-- gl-matrix `vec3.create()`: the zero vector. -/
def v3zero : V3 := ⟨XR.fin 0, XR.fin 0, XR.fin 0⟩

/-- gl-matrix `vec3.add`. -/
def v3add (a b : V3) : V3 := ⟨XR.add a.x b.x, XR.add a.y b.y, XR.add a.z b.z⟩

/-- gl-matrix `vec3.subtract`. -/
def v3sub (a b : V3) : V3 := ⟨XR.sub a.x b.x, XR.sub a.y b.y, XR.sub a.z b.z⟩

/-- gl-matrix `vec2.subtract`. -/
def v2sub (a b : V2) : V2 := ⟨XR.sub a.x b.x, XR.sub a.y b.y⟩

/-- gl-matrix `vec3.scale`. -/
def v3scale (a : V3) (s : XR) : V3 := ⟨XR.mul a.x s, XR.mul a.y s, XR.mul a.z s⟩

/-- gl-matrix `vec3.scaleAndAdd`: `a + b * s`. -/
def v3scaleAndAdd (a b : V3) (s : XR) : V3 :=
  ⟨XR.add a.x (XR.mul b.x s), XR.add a.y (XR.mul b.y s), XR.add a.z (XR.mul b.z s)⟩

/-- gl-matrix `vec3.dot`. -/
def v3dot (a b : V3) : XR :=
  XR.add (XR.add (XR.mul a.x b.x) (XR.mul a.y b.y)) (XR.mul a.z b.z)

/-- gl-matrix `vec3.cross`. -/
def v3cross (a b : V3) : V3 :=
  ⟨XR.sub (XR.mul a.y b.z) (XR.mul a.z b.y),
   XR.sub (XR.mul a.z b.x) (XR.mul a.x b.z),
   XR.sub (XR.mul a.x b.y) (XR.mul a.y b.x)⟩

/-- gl-matrix `vec3.normalize`: compute the squared length; when positive,
replace it by the reciprocal of its square root; scale by the result (so the
zero vector maps to itself, and NaN propagates). -/
def v3normalize (a : V3) : V3 :=
  let len := XR.add (XR.add (XR.mul a.x a.x) (XR.mul a.y a.y)) (XR.mul a.z a.z)
  let len2 := if XR.lt (XR.fin 0) len then XR.div (XR.fin 1) (XR.sqrt len) else len
  v3scale a len2

/-- gl-matrix `vec3.min` (componentwise `Math.min`). -/
def v3min (a b : V3) : V3 := ⟨XR.jsMin a.x b.x, XR.jsMin a.y b.y, XR.jsMin a.z b.z⟩

/-- gl-matrix `vec3.max` (componentwise `Math.max`). -/
def v3max (a b : V3) : V3 := ⟨XR.jsMax a.x b.x, XR.jsMax a.y b.y, XR.jsMax a.z b.z⟩

/-- the source type `TypeArray` (a JavaScript typed array of numbers). -/
abbrev TypeArray := List XR

/-- reading a typed-array element; an out-of-bounds read yields `undefined`,
which every arithmetic use and typed-array store in the source coerces to NaN. -/
def taGet (a : TypeArray) (i : ℕ) : XR := a.getD i XR.nan

/-- `Geometry.createVector2` from `Geometry.ts`: `index *= 2` then read two scalars. -/
def Geometry.createVector2 (array : TypeArray) (index : ℕ) : V2 :=
  ⟨taGet array (index * 2), taGet array (index * 2 + 1)⟩

/-- `Geometry.createVector3` from `Geometry.ts`: `index *= 3` then read three scalars. -/
def Geometry.createVector3 (array : TypeArray) (index : ℕ) : V3 :=
  ⟨taGet array (index * 3), taGet array (index * 3 + 1), taGet array (index * 3 + 2)⟩

end

/-- the Cocos `AttributeName` enumeration (only the nine members used by
`Geometry.ts`; the enumeration lives in the engine-typings module, and only
the identity of each member matters to the embedded code). -/
inductive AttributeName where
  | ATTR_POSITION
  | ATTR_NORMAL
  | ATTR_TANGENT
  | ATTR_TEX_COORD
  | ATTR_TEX_COORD1
  | ATTR_TEX_COORD2
  | ATTR_COLOR
  | ATTR_JOINTS
  | ATTR_WEIGHTS
  deriving DecidableEq

/-- a `BoundingBox` as consumed by `Geometry.ts` (a min and a max corner). -/
structure BoundingBox where
  min : V3
  max : V3

/-- `AttributeData` from `Geometry.ts`.  The `name` is an `Option` because
`creatFromGLTF` stores `gltfAttributeMaps[key]`, which is `undefined` for a
source key outside the mapping table (the TypeScript annotation claims
non-nullability, but the runtime value can be `undefined`). -/
structure AttributeData where
  name : Option AttributeName
  data : TypeArray

/-- `PrimitiveData` from `Geometry.ts`. -/
structure PrimitiveData where
  indices : Option (List ℕ)
  joints : Option (List ℕ)
  attributeDatas : List AttributeData
  boundingBox : Option BoundingBox

/-- the `Geometry` class state: its list of primitives. -/
structure Geometry where
  primitiveDatas : List PrimitiveData

/-- the module-level `gltfAttributeMaps` table from `Geometry.ts`, read at a
runtime string key: `undefined` (here `none`) for a key outside the table. -/
def gltfAttributeMaps (key : String) : Option AttributeName :=
  if key = "POSITION" then some AttributeName.ATTR_POSITION
  else if key = "NORMAL" then some AttributeName.ATTR_NORMAL
  else if key = "TANGENT" then some AttributeName.ATTR_TANGENT
  else if key = "TEXCOORD_0" then some AttributeName.ATTR_TEX_COORD
  else if key = "TEXCOORD_1" then some AttributeName.ATTR_TEX_COORD1
  else if key = "TEXCOORD_2" then some AttributeName.ATTR_TEX_COORD2
  else if key = "COLOR_0" then some AttributeName.ATTR_COLOR
  else if key = "JOINTS_0" then some AttributeName.ATTR_JOINTS
  else if key = "WEIGHTS_0" then some AttributeName.ATTR_WEIGHTS
  else none

/-- one skin joint of the external glTF loader (only `nodeID` is read). -/
structure GltfSkinJoint where
  nodeID : ℕ

/-- one skin of the external glTF loader. -/
structure GltfSkin where
  joints : List GltfSkinJoint

/-- a glTF mesh primitive as `creatFromGLTF` consumes it.  The index accessor
and each attribute accessor are represented by their already-decoded arrays
(the decoding `glTFLoaderBasic.accessorToTypeArray` is an external
collaborator); `attributes` lists the source keys in iteration order. -/
structure MeshPrimitive where
  indices : Option (List ℕ)
  attributes : List (String × TypeArray)
  boundingBox : Option BoundingBox

/-- a glTF mesh (its primitive list). -/
structure GLTFMesh where
  primitives : List MeshPrimitive

/-- the glTF document as `creatFromGLTF` consumes it. -/
structure GLTF where
  meshes : List GLTFMesh
  skins : Option (List GltfSkin)

/-- `Geometry.creatFromGLTF`: reject a multi-mesh document, then build one
`PrimitiveData` per primitive; every source attribute key produces one pushed
`AttributeData` whose `name` is the `gltfAttributeMaps` lookup of the key. -/
def Geometry.creatFromGLTF (gltf : GLTF) : Except String Geometry :=
  if 1 < gltf.meshes.length then Except.error "Multiple Mesh is not supported."
  else
    match gltf.meshes.head? with
    | none => Except.error "TypeError: cannot read primitives of undefined"
    | some mesh =>
      let joints : Option (List ℕ) :=
        match gltf.skins with
        | none => none
        | some skins =>
          if skins.length = 0 then none
          else (skins.head?).map (fun s => s.joints.map (fun x => x.nodeID))
      Except.ok
        { primitiveDatas :=
            mesh.primitives.map (fun primitive =>
              { indices := primitive.indices
                joints := joints
                attributeDatas :=
                  primitive.attributes.map (fun ka =>
                    { name := gltfAttributeMaps ka.1, data := ka.2 })
                boundingBox := primitive.boundingBox }) }

noncomputable section

/-- `Geometry.getBoundPositions`: seed the running bounds at plus and minus
infinity; per primitive fold in the precomputed box when present, otherwise
loop `i = 0, 3, 6, ...` while `i` is below the position array length and fold
`createVector3(typeArray, i)` — note the source passes the element offset `i`
to `createVector3`, which multiplies its index argument by 3 once more.
The loop runs `ceil(length / 3)` times.  A missing Position attribute makes
the member access `.data` on `undefined` throw. -/
def Geometry.getBoundPositions (g : Geometry) : Except String (V3 × V3) :=
  g.primitiveDatas.foldl
    (fun acc primitive =>
      match acc with
      | Except.error e => Except.error e
      | Except.ok bounds =>
        match primitive.boundingBox with
        | some bb => Except.ok (v3min bounds.1 bb.min, v3max bounds.2 bb.max)
        | none =>
          match primitive.attributeDatas.find? (fun x => x.name == some AttributeName.ATTR_POSITION) with
          | none => Except.error "TypeError: cannot read data of undefined"
          | some posAttr =>
            let typeArray := posAttr.data
            Except.ok ((List.range ((typeArray.length + 2) / 3)).foldl
              (fun bs k =>
                let position := Geometry.createVector3 typeArray (3 * k)
                (v3min bs.1 position, v3max bs.2 position))
              bounds))
    (Except.ok (⟨XR.pinf, XR.pinf, XR.pinf⟩, ⟨XR.ninf, XR.ninf, XR.ninf⟩))

/-- `Geometry.computeNormals`: one zero accumulator per vertex
(`vertexCount = positionArray.length / 3`); per index triple accumulate the
cross product of the two edge vectors into the accumulators of the three
vertex indices; finally normalize every accumulator in place.
An out-of-range accumulator index would throw in JavaScript; the model makes
the update a no-op, and every theorem below assumes in-range indices.
A missing Position attribute, or missing indices, throws. -/
def Geometry.computeNormals (primitiveData : PrimitiveData) : Except String (List V3) :=
  match primitiveData.attributeDatas.find? (fun x => x.name == some AttributeName.ATTR_POSITION) with
  | none => Except.error "TypeError: cannot read data of undefined"
  | some posAttr =>
    let positionArray := posAttr.data
    let vertexCount := positionArray.length / 3
    match primitiveData.indices with
    | none => Except.error "TypeError: cannot read length of undefined"
    | some indicesArray =>
      let step := fun (normalList : List V3) (t : ℕ) =>
        let index1 := indicesArray.getD (3 * t) 0
        let index2 := indicesArray.getD (3 * t + 1) 0
        let index3 := indicesArray.getD (3 * t + 2) 0
        let vertex1 := Geometry.createVector3 positionArray index1
        let vertex2 := Geometry.createVector3 positionArray index2
        let vertex3 := Geometry.createVector3 positionArray index3
        let dir1 := v3sub vertex2 vertex1
        let dir2 := v3sub vertex3 vertex1
        let dir3 := v3cross dir1 dir2
        let normalList := normalList.set index1 (v3add (normalList.getD index1 v3zero) dir3)
        let normalList := normalList.set index2 (v3add (normalList.getD index2 v3zero) dir3)
        let normalList := normalList.set index3 (v3add (normalList.getD index3 v3zero) dir3)
        normalList
      let normalList :=
        (List.range ((indicesArray.length + 2) / 3)).foldl step (List.replicate vertexCount v3zero)
      Except.ok (normalList.map v3normalize)

/-- the value `r = 1 / (uv1.x * uv2.y - uv2.x * uv1.y)` that the triangle loop
of `Geometry.computeTangents` computes for triangle `i` (the UV edges are the
texcoord differences of the index triple at positions `3i, 3i+1, 3i+2`). -/
def Geometry.triangleR (coordArray : TypeArray) (indicesArray : List ℕ) (i : ℕ) : XR :=
  let index1 := indicesArray.getD (i * 3) 0
  let index2 := indicesArray.getD (i * 3 + 1) 0
  let index3 := indicesArray.getD (i * 3 + 2) 0
  let texcoord1 := Geometry.createVector2 coordArray index1
  let texcoord2 := Geometry.createVector2 coordArray index2
  let texcoord3 := Geometry.createVector2 coordArray index3
  let uv1 := v2sub texcoord2 texcoord1
  let uv2 := v2sub texcoord3 texcoord1
  XR.div (XR.fin 1) (XR.sub (XR.mul uv1.x uv2.y) (XR.mul uv2.x uv1.y))

/-- the body of the triangle loop of `Geometry.computeTangents`, acting on the
pair of accumulator lists `(tan1, tan2)` for triangle `i`: when `r` is not
finite the triangle is skipped (`continue`), otherwise `sdir` and `tdir` are
accumulated into the three vertex slots of `tan1` and `tan2`. -/
def Geometry.computeTangentsTri (positionArray coordArray : TypeArray) (indicesArray : List ℕ)
    (st : List V3 × List V3) (i : ℕ) : List V3 × List V3 :=
  let index1 := indicesArray.getD (i * 3) 0
  let index2 := indicesArray.getD (i * 3 + 1) 0
  let index3 := indicesArray.getD (i * 3 + 2) 0
  let vertex1 := Geometry.createVector3 positionArray index1
  let vertex2 := Geometry.createVector3 positionArray index2
  let vertex3 := Geometry.createVector3 positionArray index3
  let dir1 := v3sub vertex2 vertex1
  let dir2 := v3sub vertex3 vertex1
  let r := Geometry.triangleR coordArray indicesArray i
  if XR.isFinite r then
    let sdir := v3scale (v3scaleAndAdd (v3scale dir1 ((Geometry.createVector2 coordArray index3).y |>.sub (Geometry.createVector2 coordArray index1).y)) dir2 (XR.neg ((Geometry.createVector2 coordArray index2).y |>.sub (Geometry.createVector2 coordArray index1).y))) r
    let tdir := v3scale (v3scaleAndAdd (v3scale dir2 ((Geometry.createVector2 coordArray index2).x |>.sub (Geometry.createVector2 coordArray index1).x)) dir1 (XR.neg ((Geometry.createVector2 coordArray index3).x |>.sub (Geometry.createVector2 coordArray index1).x))) r
    let tan1 := st.1
    let tan2 := st.2
    let tan1 := tan1.set index1 (v3add (tan1.getD index1 v3zero) sdir)
    let tan1 := tan1.set index2 (v3add (tan1.getD index2 v3zero) sdir)
    let tan1 := tan1.set index3 (v3add (tan1.getD index3 v3zero) sdir)
    let tan2 := tan2.set index1 (v3add (tan2.getD index1 v3zero) tdir)
    let tan2 := tan2.set index2 (v3add (tan2.getD index2 v3zero) tdir)
    let tan2 := tan2.set index3 (v3add (tan2.getD index3 v3zero) tdir)
    (tan1, tan2)
  else st

/-- `Geometry.computeTangents`: accumulate `sdir` / `tdir` per triangle into
`tan1` / `tan2` (skipping triangles with a non-finite `r`), then per vertex
Gram-Schmidt-orthogonalize `tan1[i]` against the normalized normal, compute
the handedness test `dot(cross(normal, tan1[i]), tan2[i])`, and emit
`(temp.x, temp.y, temp.z, w)` where `w = (test < 0) ? 1 : 1`. -/
def Geometry.computeTangents (primitiveData : PrimitiveData) (normalArray : TypeArray) :
    Except String (List V4) :=
  match primitiveData.attributeDatas.find? (fun x => x.name == some AttributeName.ATTR_POSITION) with
  | none => Except.error "TypeError: cannot read data of undefined"
  | some posAttr =>
    let positionArray := posAttr.data
    let vertexCount := positionArray.length / 3
    match primitiveData.indices with
    | none => Except.error "TypeError: cannot read length of undefined"
    | some indicesArray =>
      match primitiveData.attributeDatas.find? (fun x => x.name == some AttributeName.ATTR_TEX_COORD) with
      | none => Except.error "TypeError: cannot read data of undefined"
      | some coordAttr =>
        let coordArray := coordAttr.data
        let init : List V3 × List V3 :=
          (List.replicate vertexCount v3zero, List.replicate vertexCount v3zero)
        let st := (List.range ((indicesArray.length + 2) / 3)).foldl
          (Geometry.computeTangentsTri positionArray coordArray indicesArray) init
        Except.ok ((List.range vertexCount).map (fun i =>
          let normal := v3normalize (Geometry.createVector3 normalArray i)
          let normal2 := normal
          let t := st.1.getD i v3zero
          let temp := v3sub t (v3scale normal (v3dot normal t))
          let temp2 := v3normalize temp
          let temp3 := v3cross normal2 t
          let test := v3dot temp3 (st.2.getD i v3zero)
          let w := if XR.lt test (XR.fin 0) then XR.fin 1 else XR.fin 1
          ⟨temp2.x, temp2.y, temp2.z, w⟩))

/-- `Geometry.createNormalTypeArray`: run `computeNormals` on the indexed
primitive and flatten the normals into a typed array of three scalars per
vertex. -/
def Geometry.createNormalTypeArray (g : Geometry) (indexPrimitive : ℕ) : Except String TypeArray :=
  match g.primitiveDatas.get? indexPrimitive with
  | none => Except.error "TypeError: cannot read attributeDatas of undefined"
  | some pd =>
    (Geometry.computeNormals pd).map (fun normalList =>
      normalList.flatMap (fun n => [n.x, n.y, n.z]))

/-- `Geometry.createTangentAccessor`: run `computeTangents` on the indexed
primitive and flatten the tangents into a typed array of four scalars per
vertex. -/
def Geometry.createTangentAccessor (g : Geometry) (indexPrimitive : ℕ) (normalArray : TypeArray) :
    Except String TypeArray :=
  match g.primitiveDatas.get? indexPrimitive with
  | none => Except.error "TypeError: cannot read attributeDatas of undefined"
  | some pd =>
    (Geometry.computeTangents pd normalArray).map (fun tangentList =>
      tangentList.flatMap (fun t => [t.x, t.y, t.z, t.w]))

/-- `Geometry.getAttributeAccessor`, instrumented with two invocation counters
(the number of normal-generator and tangent-generator runs, the computation
counter of the specification's memoization test).  State passing replaces the
in-place `attributeDatas.push`.  In the Tangent branch the source reads
`find(ATTR_NORMAL).data` before its `typeArray == null` re-check: when the
Normal attribute is absent the member access on `undefined` throws, so the
guarded recursive `getAttributeAccessor(indexPrimitive, ATTR_NORMAL)` call is
unreachable (`AttributeData.data` is never null), and the model returns the
thrown TypeError there. -/
def Geometry.getAttributeAccessorCounted (g : Geometry) (indexPrimitive : ℕ)
    (attributeName : AttributeName) : Except String (TypeArray × Geometry × ℕ × ℕ) :=
  match g.primitiveDatas.get? indexPrimitive with
  | none => Except.error "TypeError: cannot read attributeDatas of undefined"
  | some pd =>
    match pd.attributeDatas.find? (fun x => x.name == some attributeName) with
    | some attributeData => Except.ok (attributeData.data, g, 0, 0)
    | none =>
      match attributeName with
      | AttributeName.ATTR_NORMAL =>
        (Geometry.createNormalTypeArray g indexPrimitive).map (fun data =>
          let pd2 : PrimitiveData :=
            { pd with attributeDatas := pd.attributeDatas ++ [⟨some attributeName, data⟩] }
          (data, ⟨g.primitiveDatas.set indexPrimitive pd2⟩, 1, 0))
      | AttributeName.ATTR_TANGENT =>
        match pd.attributeDatas.find? (fun x => x.name == some AttributeName.ATTR_NORMAL) with
        | none => Except.error "TypeError: cannot read data of undefined"
        | some nd =>
          (Geometry.createTangentAccessor g indexPrimitive nd.data).map (fun data =>
            let pd2 : PrimitiveData :=
              { pd with attributeDatas := pd.attributeDatas ++ [⟨some attributeName, data⟩] }
            (data, ⟨g.primitiveDatas.set indexPrimitive pd2⟩, 0, 1))
      | _ => Except.error "The attribute is not supported."

/-- `Geometry.getAttributeAccessor`: the returned array and the updated
geometry state (the instrumented function with the counters dropped). -/
def Geometry.getAttributeAccessor (g : Geometry) (indexPrimitive : ℕ)
    (attributeName : AttributeName) : Except String (TypeArray × Geometry) :=
  (Geometry.getAttributeAccessorCounted g indexPrimitive attributeName).map
    (fun r => (r.1, r.2.1))

end

/-!
Model of the Cocos mesh container file (`CocosMeshMeta` and `CocosMesh`).
The helper module `Cocos` (formats, readers, offsets) is not part of the
repository sources available here; its pieces are modelled from the
specification where marked.  This part of the system is exact-rational:
the decoded scalars are rationals and everything is computable.
-/

/-- the numeric kind of a vertex-attribute format.
Modelled from the spec: a format scalar is a signed or unsigned integer or a
float. -/
inductive FormatKind where
  | kUInt
  | kSInt
  | kFloat
  deriving DecidableEq

/-- one entry of `FormatInfos` from the missing Cocos module.
Modelled from the spec: a format has a component count, a component byte
width of 1, 2 or 4, a numeric kind, and an optional normalized flag. -/
structure VFormat where
  kind : FormatKind
  size : ℕ
  count : ℕ
  normalized : Bool
  deriving DecidableEq

/-- a little-endian unsigned integer read of `n` bytes at byte position
`pos` of the buffer (bytes are values below 256; a missing byte reads 0). -/
def readUIntLE (buffer : List ℕ) (pos : ℕ) : ℕ → ℕ
  | 0 => 0
  | n + 1 => buffer.getD pos 0 + 256 * readUIntLE buffer (pos + 1) n

/-- two-complement reinterpretation of an `size`-byte unsigned value. -/
def toSigned (u : ℕ) (size : ℕ) : ℤ :=
  if u < 2 ^ (8 * size - 1) then (u : ℤ) else (u : ℤ) - 2 ^ (8 * size)

/-- exact value of an IEEE-754 binary32 bit pattern (NaN and the infinities,
which have no rational value, decode to 0; they never arise in the byte-exact
round trips considered here). -/
def decodeFloat32 (n : ℕ) : ℚ :=
  let sign : ℕ := n / 2 ^ 31 % 2
  let ex : ℕ := n / 2 ^ 23 % 256
  let frac : ℕ := n % 2 ^ 23
  let mag : ℚ :=
    if ex = 0 then (frac : ℚ) / 2 ^ 149
    else if ex = 255 then 0
    else ((2 ^ 23 + frac : ℕ) : ℚ) * 2 ^ ex / 2 ^ 150
  if sign = 1 then -mag else mag

/-- the scalar reader produced by `getReader` of the missing Cocos module.
Modelled from the spec: read one scalar at a byte position, decoded per the
numeric format — signed or unsigned integer or float, width 1, 2 or 4 bytes,
optionally normalized to the unit interval (unsigned) or to plus-minus one
(signed). -/
def readScalar (fmt : VFormat) (buffer : List ℕ) (pos : ℕ) : ℚ :=
  match fmt.kind with
  | FormatKind.kUInt =>
    let u := readUIntLE buffer pos fmt.size
    if fmt.normalized then (u : ℚ) / (2 ^ (8 * fmt.size) - 1) else (u : ℚ)
  | FormatKind.kSInt =>
    let v := toSigned (readUIntLE buffer pos fmt.size) fmt.size
    if fmt.normalized then (v : ℚ) / (2 ^ (8 * fmt.size - 1) - 1) else (v : ℚ)
  | FormatKind.kFloat =>
    if fmt.size = 4 then decodeFloat32 (readUIntLE buffer pos 4) else 0

/-- an `Attribute` descriptor of a vertex bundle (its semantic name and
format). -/
structure CAttribute where
  name : String
  format : VFormat
  deriving DecidableEq

/-- `getOffset` from the missing Cocos module.
Modelled from the spec: the byte offset of attribute `ia` within one
interleaved vertex record is the summed byte sizes of the preceding
attributes. -/
def getOffset (attributes : List CAttribute) (ia : ℕ) : ℕ :=
  ((attributes.take ia).map (fun a => a.format.size * a.format.count)).sum

/-- a buffer view descriptor `{offset, stride, count}`. -/
structure CBufferView where
  offset : ℕ
  stride : ℕ
  count : ℕ
  deriving DecidableEq

/-- an `IVertexBundle` descriptor: one interleaved region and its attributes. -/
structure IVertexBundle where
  view : CBufferView
  attributes : List CAttribute
  deriving DecidableEq

/-- an `ISubMesh` descriptor (only its index view is read). -/
structure ISubMesh where
  indexView : CBufferView
  deriving DecidableEq

/-- one decoded `AttributeValue` of a vertex bundle (the source field name
`attribute` is a reserved word here, hence `attrib`). -/
structure AttributeValue where
  attrib : CAttribute
  data : List ℚ
  deriving DecidableEq

/-- the vertex-bundle decoding loop of the `CocosMesh` constructor, for one
bundle: per attribute `ia`, a `DataView` is based at
`view.offset + getOffset(attributes, ia)`, a dense storage of
`count * componentCount` scalars is allocated, and
`storage[componentCount * iVertex + iComponent]` receives the scalar read at
relative byte position `stride * iVertex + componentSize * iComponent`
(the storage element width equals the format component width). -/
def CocosMesh.decodeBundle (arrayBuffer : List ℕ) (vertexBundle : IVertexBundle) :
    List AttributeValue :=
  vertexBundle.attributes.enum.map (fun p =>
    let ia := p.1
    let attrib := p.2
    let base := vertexBundle.view.offset + getOffset vertexBundle.attributes ia
    let format := attrib.format
    let vertexCount := vertexBundle.view.count
    let inputStride := vertexBundle.view.stride
    let componentCount := format.count
    { attrib := attrib
      data := (List.range vertexCount).flatMap (fun iVertex =>
        (List.range componentCount).map (fun iComponent =>
          readScalar format arrayBuffer
            (base + inputStride * iVertex + format.size * iComponent))) })

/-- the bundle part of the `CocosMesh` constructor: decode every vertex
bundle of the metadata. -/
def CocosMesh.decodeBundles (arrayBuffer : List ℕ) (vertexBundles : List IVertexBundle) :
    List (List AttributeValue) :=
  vertexBundles.map (CocosMesh.decodeBundle arrayBuffer)

/-- the index part of the `CocosMesh` constructor: per submesh, reinterpret
`count` unsigned integers of `stride` bytes starting at the index view
offset (`getIndexStrideCtor` selects the matching unsigned width). -/
def CocosMesh.decodePrimitives (arrayBuffer : List ℕ) (primitives : List ISubMesh) :
    List (List ℕ) :=
  primitives.map (fun primitive =>
    let indexView := primitive.indexView
    (List.range indexView.count).map (fun k =>
      readUIntLE arrayBuffer (indexView.offset + indexView.stride * k) indexView.stride))

/-- a parsed JSON document (the `JSON.parse` result held by `CocosMeshMeta`). -/
inductive JValue where
  | jnull
  | jbool (b : Bool)
  | jnum (q : ℚ)
  | jstr (s : String)
  | jarr (elems : List JValue)
  | jobj (fields : List (String × JValue))

/-- JavaScript numeric indexing `v[i]`: an element of an array, otherwise
`undefined` (`none`). -/
def JValue.idx : JValue → ℕ → Option JValue
  | JValue.jarr l, i => l.get? i
  | _, _ => none

/-- JavaScript in-place element assignment `v[i] = e` on an array (only
within the current bounds: every theorem below stays in that regime, where
JavaScript would not grow the array); on a non-array value the model is the
identity. -/
def JValue.setIdx : JValue → ℕ → JValue → JValue
  | JValue.jarr l, i, e => JValue.jarr (l.set i e)
  | v, _, _ => v

/-- path lookup through nested arrays (iterated `JValue.idx`). -/
def JValue.getPath (v : JValue) (path : List ℕ) : Option JValue :=
  path.foldl (fun acc i => acc.bind (fun w => w.idx i)) (some v)

/-- functional in-place update of the value at a path of array indices: the
JSON document is a tree (`JSON.parse` never aliases), so mutating the array
object reached by a chain of indexings is the same as rebuilding the spine.
A dangling path leaves the document unchanged (JavaScript would throw; the
theorems below always supply the path). -/
def JValue.updateAt : JValue → List ℕ → (JValue → JValue) → JValue
  | v, [], f => f v
  | JValue.jarr l, i :: rest, f =>
    match l.get? i with
    | some c => JValue.jarr (l.set i (JValue.updateAt c rest f))
    | none => JValue.jarr l
  | v, _ :: _, _ => v

/-- a `Vec3` of the Cocos converter (the value passed to the setters). -/
structure CVec3 where
  x : ℚ
  y : ℚ
  z : ℚ

/-- the `minPosition` setter of `CocosMeshMeta`: `getBin()` is
`data[5][0][3]`, `minPositionArray` is `getBin()[3]`, and the setter writes
`v.x`, `v.y`, `v.z` into its elements 1, 2 and 3. -/
def CocosMeshMeta.setMinPosition (data : JValue) (v : CVec3) : JValue :=
  JValue.updateAt data [5, 0, 3, 3] (fun a =>
    ((a.setIdx 1 (JValue.jnum v.x)).setIdx 2 (JValue.jnum v.y)).setIdx 3 (JValue.jnum v.z))

/-- the `maxPosition` setter of `CocosMeshMeta`: `maxPositionArray` is
`getBin()[6]`, and the setter writes `v.x`, `v.y`, `v.z` into its elements
1, 2 and 3. -/
def CocosMeshMeta.setMaxPosition (data : JValue) (v : CVec3) : JValue :=
  JValue.updateAt data [5, 0, 3, 6] (fun a =>
    ((a.setIdx 1 (JValue.jnum v.x)).setIdx 2 (JValue.jnum v.y)).setIdx 3 (JValue.jnum v.z))

noncomputable section

/-!
Shared concrete geometry used by several tests below: one primitive with a
single triangle of positions (0,0,0), (1,0,0), (0,1,0), texture coordinates
(0,0), (1,0), (0,1), and indices [0, 1, 2].
-/

/-- a single-triangle primitive carrying Position and TexCoord0 only. -/
def trianglePrimitive : PrimitiveData :=
  { indices := some [0, 1, 2]
    joints := none
    attributeDatas :=
      [ { name := some AttributeName.ATTR_POSITION
          data := [XR.fin 0, XR.fin 0, XR.fin 0, XR.fin 1, XR.fin 0, XR.fin 0,
                   XR.fin 0, XR.fin 1, XR.fin 0] }
      , { name := some AttributeName.ATTR_TEX_COORD
          data := [XR.fin 0, XR.fin 0, XR.fin 1, XR.fin 0, XR.fin 0, XR.fin 1] } ]
    boundingBox := none }

/-- a normal array of (0,0,1) for each of the three vertices. -/
def triangleNormalArray : TypeArray :=
  [XR.fin 0, XR.fin 0, XR.fin 1, XR.fin 0, XR.fin 0, XR.fin 1, XR.fin 0, XR.fin 0, XR.fin 1]

/-- the single-triangle primitive with a stored Normal attribute as well. -/
def trianglePrimitiveN : PrimitiveData :=
  { trianglePrimitive with
      attributeDatas := trianglePrimitive.attributeDatas ++
        [{ name := some AttributeName.ATTR_NORMAL, data := triangleNormalArray }] }

/-- a geometry holding the single-triangle primitive with its normals. -/
def triangleGeometryN : Geometry := { primitiveDatas := [trianglePrimitiveN] }

/-- a primitive holding exactly the input of the normal-generator test:
the position array (0,0,0), (1,0,0), (0,1,0) and the index array [0, 1, 2],
and no other attribute. -/
def normalsPrimitive : PrimitiveData :=
  { indices := some [0, 1, 2]
    joints := none
    attributeDatas :=
      [ { name := some AttributeName.ATTR_POSITION
          data := [XR.fin 0, XR.fin 0, XR.fin 0, XR.fin 1, XR.fin 0, XR.fin 0,
                   XR.fin 0, XR.fin 1, XR.fin 0] } ]
    boundingBox := none }

/-- C8: on the primitive whose position array is (0,0,0), (1,0,0), (0,1,0)
with index array [0, 1, 2], the normal generator — which accumulates the
unnormalized cross product of the edges v1 - v0 and v2 - v0 into each of the
triangle's three vertex accumulators and then normalizes every
accumulator — returns (0,0,1) for all three vertices. -/
theorem C8_single_triangle_normals :
    Geometry.computeNormals normalsPrimitive =
      Except.ok [⟨XR.fin 0, XR.fin 0, XR.fin 1⟩, ⟨XR.fin 0, XR.fin 0, XR.fin 1⟩,
                 ⟨XR.fin 0, XR.fin 0, XR.fin 1⟩] := by
  simp [Geometry.computeNormals, normalsPrimitive, Geometry.createVector3, taGet,
    v3normalize, v3sub, v3add, v3cross, v3scale, v3zero, XR.sub, List.range_succ,
    Real.sqrt_one]

/-- C2: every tangent that `computeTangents` emits has handedness component
`+1`: the handedness test value is computed, but both branches of
`(test < 0) ? 1 : 1` emit 1, so the sign of the test never affects the
output. -/
theorem C2_handedness_always_plus_one (pd : PrimitiveData) (na : TypeArray) (ts : List V4)
    (h : Geometry.computeTangents pd na = Except.ok ts) :
    ∀ t ∈ ts, t.w = XR.fin 1 := by
  intro t ht
  unfold Geometry.computeTangents at h
  split at h
  · exact absurd h (by simp)
  · split at h
    · exact absurd h (by simp)
    · split at h
      · exact absurd h (by simp)
      · rw [Except.ok.injEq] at h
        subst h
        simp only [List.mem_map] at ht
        obtain ⟨i, _, hi⟩ := ht
        rw [← hi]
        simp

/-- the concrete tangent output of the shared triangle (used to discharge the
hypothesis of `C2_handedness_always_plus_one` at a concrete input). -/
theorem computeTangents_triangle_eval :
    Geometry.computeTangents trianglePrimitive triangleNormalArray =
      Except.ok [⟨XR.fin 1, XR.fin 0, XR.fin 0, XR.fin 1⟩,
                 ⟨XR.fin 1, XR.fin 0, XR.fin 0, XR.fin 1⟩,
                 ⟨XR.fin 1, XR.fin 0, XR.fin 0, XR.fin 1⟩] := by
  simp [Geometry.computeTangents, Geometry.computeTangentsTri, Geometry.triangleR,
    trianglePrimitive, triangleNormalArray, Geometry.createVector3, Geometry.createVector2,
    taGet, v3normalize, v3sub, v3add, v3cross, v3scale, v3scaleAndAdd, v3dot, v2sub, v3zero,
    XR.sub, List.range_succ, Real.sqrt_one]

/-- C2 witness: on the shared triangle the tangent generator succeeds and the
first emitted tangent has handedness component `+1`. -/
theorem C2_handedness_witness :
    (Geometry.computeTangents trianglePrimitive triangleNormalArray =
      Except.ok [⟨XR.fin 1, XR.fin 0, XR.fin 0, XR.fin 1⟩,
                 ⟨XR.fin 1, XR.fin 0, XR.fin 0, XR.fin 1⟩,
                 ⟨XR.fin 1, XR.fin 0, XR.fin 0, XR.fin 1⟩]) ∧
    (⟨XR.fin 1, XR.fin 0, XR.fin 0, XR.fin 1⟩ : V4).w = XR.fin 1 :=
  ⟨computeTangents_triangle_eval,
   C2_handedness_always_plus_one trianglePrimitive triangleNormalArray _
     computeTangents_triangle_eval _ (by simp)⟩

end

noncomputable section

/-- folding a step function over a list is unchanged by dropping an element
on which the step is the identity (for every incoming state). -/
theorem foldl_filter_of_id {α β : Type} [DecidableEq α] (f : β → α → β) (j : α)
    (hid : ∀ s, f s j = s) :
    ∀ (l : List α) (init : β),
      l.foldl f init = (l.filter (fun t => t != j)).foldl f init := by
  intro l
  induction l with
  | nil => intro init; rfl
  | cons a tl ih =>
    intro init
    by_cases h : a = j
    · subst h
      simp only [List.foldl_cons, List.filter_cons, bne_self_eq_false, hid]
      exact ih init
    · simp only [List.foldl_cons, List.filter_cons, bne_iff_ne, ne_eq, h,
        not_false_eq_true, if_pos]
      exact ih (f init a)

/-- C4: a triangle whose UV determinant makes `r = 1/det` non-finite is
skipped entirely by the tangent accumulation: its loop step is the identity
on the accumulator pair, and the whole triangle fold equals the fold with
that triangle removed, leaving every other contribution unaffected. -/
theorem C4_zero_det_triangle_contributes_nothing (positionArray coordArray : TypeArray)
    (indicesArray : List ℕ) (j : ℕ)
    (hr : XR.isFinite (Geometry.triangleR coordArray indicesArray j) = false) :
    (∀ st, Geometry.computeTangentsTri positionArray coordArray indicesArray st j = st) ∧
    ∀ (l : List ℕ) (init : List V3 × List V3),
      l.foldl (Geometry.computeTangentsTri positionArray coordArray indicesArray) init =
        (l.filter (fun t => t != j)).foldl
          (Geometry.computeTangentsTri positionArray coordArray indicesArray) init := by
  have hid : ∀ st, Geometry.computeTangentsTri positionArray coordArray indicesArray st j = st := by
    intro st
    unfold Geometry.computeTangentsTri
    simp [hr]
  exact ⟨hid, fun l init => foldl_filter_of_id _ j hid l init⟩

/-- a texture-coordinate array placing all three vertices of the shared
triangle at the same UV point (a collapsed, zero-determinant UV mapping). -/
def collapsedCoordArray : TypeArray :=
  [XR.fin 0, XR.fin 0, XR.fin 0, XR.fin 0, XR.fin 0, XR.fin 0]

/-- C4 witness: with all three UVs identical, `r` is non-finite, the loop
step for that triangle is the identity on the zero accumulators, and folding
the one-triangle list equals folding the empty list. -/
theorem C4_zero_det_witness :
    XR.isFinite (Geometry.triangleR collapsedCoordArray [0, 1, 2] 0) = false ∧
    Geometry.computeTangentsTri
        [XR.fin 0, XR.fin 0, XR.fin 0, XR.fin 1, XR.fin 0, XR.fin 0, XR.fin 0, XR.fin 1, XR.fin 0]
        collapsedCoordArray [0, 1, 2]
        (List.replicate 3 v3zero, List.replicate 3 v3zero) 0 =
      (List.replicate 3 v3zero, List.replicate 3 v3zero) ∧
    [0].foldl (Geometry.computeTangentsTri
        [XR.fin 0, XR.fin 0, XR.fin 0, XR.fin 1, XR.fin 0, XR.fin 0, XR.fin 0, XR.fin 1, XR.fin 0]
        collapsedCoordArray [0, 1, 2])
        (List.replicate 3 v3zero, List.replicate 3 v3zero) =
      ([0].filter (fun t => t != 0)).foldl (Geometry.computeTangentsTri
        [XR.fin 0, XR.fin 0, XR.fin 0, XR.fin 1, XR.fin 0, XR.fin 0, XR.fin 0, XR.fin 1, XR.fin 0]
        collapsedCoordArray [0, 1, 2])
        (List.replicate 3 v3zero, List.replicate 3 v3zero) := by
  have hr : XR.isFinite (Geometry.triangleR collapsedCoordArray [0, 1, 2] 0) = false := by
    simp [Geometry.triangleR, collapsedCoordArray, Geometry.createVector2, taGet, v2sub,
      XR.sub, XR.div]
  exact ⟨hr,
    (C4_zero_det_triangle_contributes_nothing _ collapsedCoordArray [0, 1, 2] 0 hr).1 _,
    (C4_zero_det_triangle_contributes_nothing _ collapsedCoordArray [0, 1, 2] 0 hr).2 [0] _⟩

end

noncomputable section

/-- a geometry holding the single-triangle primitive, which carries Position
and TexCoord0 but neither Normal nor Tangent. -/
def triangleGeometry : Geometry := { primitiveDatas := [trianglePrimitive] }

/-- C1 (failing input): on a primitive with no Tangent and no Normal
attribute, `getAttributeAccessor(0, Tangent)` does not synthesize the
missing Normal: the source reads `find(ATTR_NORMAL).data` before its null
re-check, so the member access on `undefined` throws a TypeError and the
guarded recursive Normal synthesis is unreachable. -/
theorem C1_tangent_without_normal_throws :
    Geometry.getAttributeAccessor triangleGeometry 0 AttributeName.ATTR_TANGENT =
      Except.error "TypeError: cannot read data of undefined" := by
  simp [Geometry.getAttributeAccessor, Geometry.getAttributeAccessorCounted,
    triangleGeometry, trianglePrimitive, Except.map]

/-- the flattened tangent array the generator produces for the shared
triangle. -/
def tangentFlatEx : TypeArray :=
  [XR.fin 1, XR.fin 0, XR.fin 0, XR.fin 1,
   XR.fin 1, XR.fin 0, XR.fin 0, XR.fin 1,
   XR.fin 1, XR.fin 0, XR.fin 0, XR.fin 1]

/-- the shared triangle primitive after the Tangent attribute was appended. -/
def trianglePrimitiveT : PrimitiveData :=
  { trianglePrimitiveN with
      attributeDatas := trianglePrimitiveN.attributeDatas ++
        [{ name := some AttributeName.ATTR_TANGENT, data := tangentFlatEx }] }

/-- the geometry state after the first Tangent request on the shared
triangle. -/
def triangleGeometryT : Geometry := { primitiveDatas := [trianglePrimitiveT] }

/-- evaluation of the first (synthesizing) Tangent request on the shared
triangle, with the instrumented counters: the tangent generator runs once,
the normal generator not at all (the stored Normal is found). -/
theorem getAttributeAccessorCounted_triangleN_eval :
    Geometry.getAttributeAccessorCounted triangleGeometryN 0 AttributeName.ATTR_TANGENT =
      Except.ok (tangentFlatEx, triangleGeometryT, 0, 1) := by
  simp [Geometry.getAttributeAccessorCounted,
    Geometry.createTangentAccessor, Except.map, triangleGeometryN, trianglePrimitiveN,
    triangleGeometryT, trianglePrimitiveT, tangentFlatEx,
    Geometry.computeTangents, Geometry.computeTangentsTri, Geometry.triangleR,
    trianglePrimitive, triangleNormalArray, Geometry.createVector3, Geometry.createVector2,
    taGet, v3normalize, v3sub, v3add, v3cross, v3scale, v3scaleAndAdd, v3dot, v2sub, v3zero,
    XR.sub, List.range_succ, Real.sqrt_one]

/-- the same evaluation through the public accessor (counters dropped). -/
theorem getAttributeAccessor_triangleN_eval :
    Geometry.getAttributeAccessor triangleGeometryN 0 AttributeName.ATTR_TANGENT =
      Except.ok (tangentFlatEx, triangleGeometryT) := by
  rw [Geometry.getAttributeAccessor, getAttributeAccessorCounted_triangleN_eval]
  rfl

end

noncomputable section

/-- a glTF document whose single primitive carries one attribute under the
unrecognized source key FOO. -/
def gltfUnrecognized : GLTF :=
  { meshes :=
      [ { primitives :=
            [ { indices := some []
                attributes := [("FOO", [XR.fin 1])]
                boundingBox := none } ] } ]
    skins := none }

/-- C3 counterexample: an attribute under the unrecognized source key FOO is
not dropped: construction succeeds and stores one `AttributeData` entry for
it (with an undefined semantic name), so the primitive attribute list is not
empty. -/
theorem C3_unrecognized_key_not_dropped :
    gltfAttributeMaps "FOO" = none ∧
    Geometry.creatFromGLTF gltfUnrecognized =
      Except.ok
        { primitiveDatas :=
            [ { indices := some []
                joints := none
                attributeDatas := [{ name := none, data := [XR.fin 1] }]
                boundingBox := none } ] } := by
  constructor
  · rfl
  · rfl

/-- C3 (amended): construction stores one attribute entry per source key, in
order, whose semantic name is the `gltfAttributeMaps` lookup of the key; the
nine recognized keys map to semantic tags and every other key yields a stored
entry with an undefined (`none`) name — it is not dropped, and no error is
raised for it. -/
theorem C3_attribute_mapping (gltf : GLTF) (g : Geometry) (mesh : GLTFMesh)
    (hm : gltf.meshes.head? = some mesh)
    (h : Geometry.creatFromGLTF gltf = Except.ok g) :
    (g.primitiveDatas.length = mesh.primitives.length ∧
      ∀ i pr, mesh.primitives.get? i = some pr →
        ∃ pd, g.primitiveDatas.get? i = some pd ∧
          pd.attributeDatas =
            pr.attributes.map (fun ka => { name := gltfAttributeMaps ka.1, data := ka.2 })) ∧
    ∀ key, (gltfAttributeMaps key).isSome = true ↔
      key ∈ ["POSITION", "NORMAL", "TANGENT", "TEXCOORD_0", "TEXCOORD_1", "TEXCOORD_2",
             "COLOR_0", "JOINTS_0", "WEIGHTS_0"] := by
  constructor
  · unfold Geometry.creatFromGLTF at h
    split at h
    · exact absurd h (by simp)
    · rw [hm] at h
      rw [Except.ok.injEq] at h
      subst h
      constructor
      · simp
      · intro i pr hpr
        rw [List.get?_map, hpr]
        exact ⟨_, rfl, rfl⟩
  · intro key
    unfold gltfAttributeMaps
    split_ifs with h1 h2 h3 h4 h5 h6 h7 h8 h9 <;> simp_all

noncomputable section

/-- a glTF document mixing a recognized key (POSITION) and an unrecognized
key (BAR) on one primitive. -/
def gltfMixed : GLTF :=
  { meshes :=
      [ { primitives :=
            [ { indices := some []
                attributes := [("POSITION", [XR.fin 0, XR.fin 0, XR.fin 0]), ("BAR", [XR.fin 5])]
                boundingBox := none } ] } ]
    skins := none }

/-- C3 witness: on the mixed-key document construction succeeds, the single
primitive stores one entry per source key (the recognized one tagged, the
unrecognized one with an undefined name), and POSITION is recognized. -/
theorem C3_attribute_mapping_witness :
    gltfMixed.meshes.head? = some
      { primitives :=
          [ { indices := some []
              attributes := [("POSITION", [XR.fin 0, XR.fin 0, XR.fin 0]), ("BAR", [XR.fin 5])]
              boundingBox := none } ] } ∧
    Geometry.creatFromGLTF gltfMixed =
      Except.ok
        { primitiveDatas :=
            [ { indices := some []
                joints := none
                attributeDatas :=
                  [ { name := some AttributeName.ATTR_POSITION
                      data := [XR.fin 0, XR.fin 0, XR.fin 0] }
                  , { name := none, data := [XR.fin 5] } ]
                boundingBox := none } ] } ∧
    (∃ pd,
      ({ primitiveDatas :=
            [ { indices := some []
                joints := none
                attributeDatas :=
                  [ { name := some AttributeName.ATTR_POSITION
                      data := [XR.fin 0, XR.fin 0, XR.fin 0] }
                  , { name := none, data := [XR.fin 5] } ]
                boundingBox := none } ] } : Geometry).primitiveDatas.get? 0 = some pd ∧
      pd.attributeDatas =
        ([("POSITION", [XR.fin 0, XR.fin 0, XR.fin 0]), ("BAR", [XR.fin 5])]).map
          (fun ka => { name := gltfAttributeMaps ka.1, data := ka.2 })) ∧
    ((gltfAttributeMaps "POSITION").isSome = true ↔
      "POSITION" ∈ ["POSITION", "NORMAL", "TANGENT", "TEXCOORD_0", "TEXCOORD_1", "TEXCOORD_2",
                    "COLOR_0", "JOINTS_0", "WEIGHTS_0"]) := by
  refine ⟨rfl, rfl, ?_, ?_⟩
  · exact (C3_attribute_mapping gltfMixed _ _ rfl rfl).1.2 0
      { indices := some []
        attributes := [("POSITION", [XR.fin 0, XR.fin 0, XR.fin 0]), ("BAR", [XR.fin 5])]
        boundingBox := none } rfl
  · exact (C3_attribute_mapping gltfMixed _ _ rfl rfl).2 "POSITION"

end

noncomputable section

/-- the specification's bounding-box example: primitive A carries the
precomputed box [(-1,-1,-1), (1,1,1)]; primitive B has no box and two
positions (0,0,0) and (2,2,2). -/
def boundsGeometry : Geometry :=
  { primitiveDatas :=
      [ { indices := none
          joints := none
          attributeDatas := []
          boundingBox := some
            { min := ⟨XR.fin (-1), XR.fin (-1), XR.fin (-1)⟩
              max := ⟨XR.fin 1, XR.fin 1, XR.fin 1⟩ } }
      , { indices := none
          joints := none
          attributeDatas :=
            [ { name := some AttributeName.ATTR_POSITION
                data := [XR.fin 0, XR.fin 0, XR.fin 0, XR.fin 2, XR.fin 2, XR.fin 2] } ]
          boundingBox := none } ] }

/-- C9 (failing input): on the boxless primitive the aggregator passes the
element offset `i = 0, 3, 6, ...` to `createVector3`, which multiplies the
index by 3 again; with two vertices the second loop turn reads elements 9,
10, 11 of the six-element position array, the out-of-bounds reads become
NaN, and `Math.min` / `Math.max` propagate NaN into both corners of the
result instead of the expected min (-1,-1,-1) and max (2,2,2). -/
theorem C9_bounds_nan_from_double_indexing :
    Geometry.getBoundPositions boundsGeometry =
      Except.ok (⟨XR.nan, XR.nan, XR.nan⟩, ⟨XR.nan, XR.nan, XR.nan⟩) := by
  simp [Geometry.getBoundPositions, boundsGeometry, Geometry.createVector3, taGet,
    v3min, v3max, List.range_succ]

end

noncomputable section

/-- a fold preserves any invariant that every step preserves. -/
theorem foldl_preserves {β ι : Type} (P : β → Prop) (f : β → ι → β)
    (hf : ∀ s i, P s → P (f s i)) :
    ∀ (l : List ι) (init : β), P init → P (l.foldl f init) := by
  intro l
  induction l with
  | nil => intro init h; exact h
  | cons a tl ih => intro init h; exact ih _ (hf _ _ h)

/-- flattening lists of a fixed length `k` multiplies the length by `k`. -/
theorem length_flatMap_const {α β : Type} (f : α → List β) (k : ℕ)
    (hf : ∀ a, (f a).length = k) (l : List α) : (l.flatMap f).length = l.length * k := by
  induction l with
  | nil => simp
  | cons a tl ih =>
    simp only [List.flatMap_cons, List.length_append, hf, ih, List.length_cons]
    ring

/-- a successful `computeNormals` found a Position attribute and returned one
normal per vertex (the position length divided by three). -/
theorem computeNormals_length (pd : PrimitiveData) (nl : List V3)
    (h : Geometry.computeNormals pd = Except.ok nl) :
    ∃ posAttr,
      pd.attributeDatas.find? (fun x => x.name == some AttributeName.ATTR_POSITION) = some posAttr ∧
      nl.length = posAttr.data.length / 3 := by
  unfold Geometry.computeNormals at h
  split at h
  · exact absurd h (by simp)
  · rename_i posAttr hfind
    refine ⟨posAttr, hfind, ?_⟩
    split at h
    · exact absurd h (by simp)
    · rw [Except.ok.injEq] at h
      subst h
      rw [List.length_map]
      refine foldl_preserves (fun (s : List V3) => s.length = posAttr.data.length / 3) _
        (fun s i hs => ?_) _ _ (by simp)
      simp [List.length_set, hs]

/-- a successful `computeTangents` found a Position attribute and returned
one tangent per vertex (the position length divided by three). -/
theorem computeTangents_length (pd : PrimitiveData) (na : TypeArray) (ts : List V4)
    (h : Geometry.computeTangents pd na = Except.ok ts) :
    ∃ posAttr,
      pd.attributeDatas.find? (fun x => x.name == some AttributeName.ATTR_POSITION) = some posAttr ∧
      ts.length = posAttr.data.length / 3 := by
  unfold Geometry.computeTangents at h
  split at h
  · exact absurd h (by simp)
  · rename_i posAttr hfind
    refine ⟨posAttr, hfind, ?_⟩
    split at h
    · exact absurd h (by simp)
    · split at h
      · exact absurd h (by simp)
      · rw [Except.ok.injEq] at h
        subst h
        simp

/-- the component count fixed per semantic tag by the data model (three
scalars for positions and normals, four for tangents, two for texture
coordinates, four for colors, joints and weights). -/
def componentCount : AttributeName → ℕ
  | AttributeName.ATTR_POSITION => 3
  | AttributeName.ATTR_NORMAL => 3
  | AttributeName.ATTR_TANGENT => 4
  | AttributeName.ATTR_TEX_COORD => 2
  | AttributeName.ATTR_TEX_COORD1 => 2
  | AttributeName.ATTR_TEX_COORD2 => 2
  | AttributeName.ATTR_COLOR => 4
  | AttributeName.ATTR_JOINTS => 4
  | AttributeName.ATTR_WEIGHTS => 4

/-- C5: whenever `getAttributeAccessor` resolves a tag — returning a stored
attribute or synthesizing a Normal or Tangent — on a primitive whose stored
attributes satisfy the data-model length invariant for `n` vertices (in
particular the Position array has length `3 n`), the returned array has
length `n * componentCount tag`. -/
theorem C5_accessor_length_invariant (g : Geometry) (p n : ℕ) (tag : AttributeName)
    (pd : PrimitiveData) (arr : TypeArray) (g2 : Geometry)
    (hpd : g.primitiveDatas.get? p = some pd)
    (hstored : ∀ a ∈ pd.attributeDatas, ∀ t, a.name = some t →
      a.data.length = n * componentCount t)
    (h : Geometry.getAttributeAccessor g p tag = Except.ok (arr, g2)) :
    arr.length = n * componentCount tag := by
  unfold Geometry.getAttributeAccessor Geometry.getAttributeAccessorCounted
    Geometry.createNormalTypeArray Geometry.createTangentAccessor at h
  split at h
  · exact absurd h (by simp [Except.map])
  rename_i pd2 hpd2
  rw [hpd] at hpd2
  obtain rfl : pd = pd2 := Option.some.inj hpd2
  split at h
  case _ ad hfind =>
    simp only [Except.map] at h
    rw [Except.ok.injEq, Prod.mk.injEq] at h
    have hmem := List.mem_of_find?_eq_some hfind
    have hname := List.find?_some hfind
    simp only [beq_iff_eq] at hname
    rw [← h.1]
    exact hstored ad hmem tag hname
  case _ hfind =>
    split at h
    · split at h
      · rename_i hnone
        exact absurd hnone (by simp)
      rename_i pd3 hpd3
      obtain rfl : pd = pd3 := Option.some.inj hpd3
      cases hcn : Geometry.computeNormals pd with
      | error e => rw [hcn] at h; exact absurd h (by simp [Except.map])
      | ok nl =>
        rw [hcn] at h
        simp only [Except.map] at h
        rw [Except.ok.injEq, Prod.mk.injEq] at h
        obtain ⟨posAttr, hfp, hlen⟩ := computeNormals_length pd nl hcn
        have hmem := List.mem_of_find?_eq_some hfp
        have hname := List.find?_some hfp
        simp only [beq_iff_eq] at hname
        have hplen := hstored posAttr hmem _ hname
        rw [← h.1, length_flatMap_const (fun (v : V3) => [v.x, v.y, v.z]) 3 (fun a => rfl) nl,
          hlen, hplen]
        simp only [componentCount]
        omega
    · split at h
      · exact absurd h (by simp [Except.map])
      rename_i nd hfn
      split at h
      · rename_i hnone
        exact absurd hnone (by simp)
      rename_i pd3 hpd3
      obtain rfl : pd = pd3 := Option.some.inj hpd3
      cases hct : Geometry.computeTangents pd nd.data with
      | error e => rw [hct] at h; exact absurd h (by simp [Except.map])
      | ok ts =>
        rw [hct] at h
        simp only [Except.map] at h
        rw [Except.ok.injEq, Prod.mk.injEq] at h
        obtain ⟨posAttr, hfp, hlen⟩ := computeTangents_length pd nd.data ts hct
        have hmem := List.mem_of_find?_eq_some hfp
        have hname := List.find?_some hfp
        simp only [beq_iff_eq] at hname
        have hplen := hstored posAttr hmem _ hname
        rw [← h.1, length_flatMap_const (fun (v : V4) => [v.x, v.y, v.z, v.w]) 4 (fun a => rfl) ts,
          hlen, hplen]
        simp only [componentCount]
        omega
    · exact absurd h (by simp [Except.map])

/-- C5 witness: synthesizing the Tangent on the shared three-vertex triangle
yields an array of length `3 * componentCount Tangent = 12`. -/
theorem C5_length_witness :
    triangleGeometryN.primitiveDatas.get? 0 = some trianglePrimitiveN ∧
    Geometry.getAttributeAccessor triangleGeometryN 0 AttributeName.ATTR_TANGENT =
      Except.ok (tangentFlatEx, triangleGeometryT) ∧
    tangentFlatEx.length = 3 * componentCount AttributeName.ATTR_TANGENT :=
  ⟨rfl, getAttributeAccessor_triangleN_eval,
    C5_accessor_length_invariant triangleGeometryN 0 3 AttributeName.ATTR_TANGENT
      trianglePrimitiveN tangentFlatEx triangleGeometryT rfl
      (by
        intro a ha t ht
        simp only [trianglePrimitiveN, trianglePrimitive, triangleNormalArray,
          List.mem_append, List.mem_cons, List.not_mem_nil, or_false] at ha
        rcases ha with (rfl | rfl) | rfl <;>
          (obtain rfl := Option.some.inj ht) <;> rfl)
      getAttributeAccessor_triangleN_eval⟩

end

noncomputable section

/-- C6: lazy Tangent synthesis is memoized: a successful
`getAttributeAccessor(p, Tangent)` call ran the normal generator at most
once and the tangent generator at most once (counters of the instrumented
accessor), and repeating the call on the resulting state runs neither
generator again and returns the very array cached by the first call, with
the state unchanged. -/
theorem C6_tangent_synthesis_memoized (g : Geometry) (p : ℕ) (arr : TypeArray) (g2 : Geometry) (cN cT : ℕ)
    (h : Geometry.getAttributeAccessorCounted g p AttributeName.ATTR_TANGENT =
      Except.ok (arr, g2, cN, cT)) :
    cN ≤ 1 ∧ cT ≤ 1 ∧
    Geometry.getAttributeAccessorCounted g2 p AttributeName.ATTR_TANGENT =
      Except.ok (arr, g2, 0, 0) := by
  unfold Geometry.getAttributeAccessorCounted at h
  split at h
  · exact absurd h (by simp)
  rename_i pd hpd
  split at h
  case _ ad hfind =>
    rw [Except.ok.injEq, Prod.mk.injEq, Prod.mk.injEq, Prod.mk.injEq] at h
    obtain ⟨h1, h2, h3, h4⟩ := h
    subst h1; subst h2; subst h3; subst h4
    refine ⟨Nat.zero_le 1, Nat.zero_le 1, ?_⟩
    unfold Geometry.getAttributeAccessorCounted
    simp only [hpd, hfind]
  case _ hfind =>
    split at h
    case _ heq => exact absurd heq (by decide)
    case _ =>
      split at h
      · exact absurd h (by simp)
      rename_i nd hfn
      cases hcta : Geometry.createTangentAccessor g p nd.data with
      | error e => rw [hcta] at h; exact absurd h (by simp [Except.map])
      | ok data =>
        rw [hcta] at h
        simp only [Except.map] at h
        rw [Except.ok.injEq, Prod.mk.injEq, Prod.mk.injEq, Prod.mk.injEq] at h
        obtain ⟨h1, h2, h3, h4⟩ := h
        subst h1; subst h2; subst h3; subst h4
        refine ⟨Nat.zero_le 1, Nat.le_refl 1, ?_⟩
        unfold Geometry.getAttributeAccessorCounted
        have hget : (g.primitiveDatas.set p
            { pd with attributeDatas := pd.attributeDatas ++
                [{ name := some AttributeName.ATTR_TANGENT, data := data }] }).get? p =
            some { pd with attributeDatas := pd.attributeDatas ++
                [{ name := some AttributeName.ATTR_TANGENT, data := data }] } := by
          rw [List.get?_set_eq]
          rw [hpd]
          rfl
        simp only [hget]
        rw [List.find?_append, hfind]
        simp
    case _ hne1 hne2 => exact absurd rfl hne2

/-- C6 witness: on the shared triangle (stored Normal, no Tangent) the first
request synthesizes with zero normal-generator runs and one
tangent-generator run; the second request recomputes nothing and returns the
cached array and unchanged state. -/
theorem C6_memoization_witness :
    Geometry.getAttributeAccessorCounted triangleGeometryN 0 AttributeName.ATTR_TANGENT =
      Except.ok (tangentFlatEx, triangleGeometryT, 0, 1) ∧
    ((0 : ℕ) ≤ 1 ∧ (1 : ℕ) ≤ 1 ∧
      Geometry.getAttributeAccessorCounted triangleGeometryT 0 AttributeName.ATTR_TANGENT =
        Except.ok (tangentFlatEx, triangleGeometryT, 0, 0)) :=
  ⟨getAttributeAccessorCounted_triangleN_eval,
   C6_tangent_synthesis_memoized triangleGeometryN 0 tangentFlatEx triangleGeometryT 0 1
     getAttributeAccessorCounted_triangleN_eval⟩

end

/-- indexing into a flattening of fixed-length blocks: element `v * m + c`
of the concatenation is element `c` of block `v`. -/
theorem flatMap_fixed_get? {α β : Type} (h : α → List β) (m : ℕ)
    (hlen : ∀ a, (h a).length = m) :
    ∀ (l : List α) (v c : ℕ) (a : α), l.get? v = some a → c < m →
      (l.flatMap h).get? (v * m + c) = (h a).get? c := by
  intro l
  induction l with
  | nil => intro v c a ha _; simp at ha
  | cons a0 tl ih =>
    intro v c a ha hc
    cases v with
    | zero =>
      rw [List.get?_cons_zero, Option.some.injEq] at ha
      subst ha
      rw [List.flatMap_cons, Nat.zero_mul, Nat.zero_add]
      exact List.get?_append (by rw [hlen]; exact hc)
    | succ v =>
      rw [List.get?_cons_succ] at ha
      rw [List.flatMap_cons, List.get?_append_right (by rw [hlen]; nlinarith [Nat.succ_mul v m])]
      rw [hlen]
      have harith : (v + 1) * m + c - m = v * m + c := by
        rw [Nat.succ_mul]
        omega
      rw [harith]
      exact ih v c a ha hc

/-- C7: the interleaved-buffer decoder emits, per attribute of a bundle, a
dense array of `count * componentCount` scalars in which slot
`v * componentCount + c` is the scalar decoded per the attribute's numeric
format at byte position
`byteOffset + attrOffset + v * stride + c * componentSize` of the source
buffer, and the decoded entry keeps its attribute descriptor. -/
theorem C7_interleaved_decoder_dense (arrayBuffer : List ℕ) (vertexBundles : List IVertexBundle)
    (iv ia v c : ℕ) (vb : IVertexBundle) (attr : CAttribute)
    (bvals : List AttributeValue) (av : AttributeValue)
    (hvb : vertexBundles.get? iv = some vb)
    (hattr : vb.attributes.get? ia = some attr)
    (hbv : (CocosMesh.decodeBundles arrayBuffer vertexBundles).get? iv = some bvals)
    (hav : bvals.get? ia = some av)
    (hv : v < vb.view.count) (hc : c < attr.format.count) :
    av.attrib = attr ∧
    av.data.length = vb.view.count * attr.format.count ∧
    av.data.get? (v * attr.format.count + c) =
      some (readScalar attr.format arrayBuffer
        (vb.view.offset + getOffset vb.attributes ia + vb.view.stride * v +
          attr.format.size * c)) := by
  unfold CocosMesh.decodeBundles at hbv
  rw [List.get?_map, hvb] at hbv
  simp only [Option.map] at hbv
  rw [Option.some.injEq] at hbv
  subst hbv
  unfold CocosMesh.decodeBundle at hav
  rw [List.get?_map, List.get?_enum, hattr] at hav
  simp only [Option.map] at hav
  rw [Option.some.injEq] at hav
  subst hav
  refine ⟨rfl, ?_, ?_⟩
  · refine (length_flatMap_const _ attr.format.count (fun a => by simp) _).trans ?_
    simp
  · have hgrid := flatMap_fixed_get? (fun iVertex => (List.range attr.format.count).map
      (fun iComponent => readScalar attr.format arrayBuffer
        (vb.view.offset + getOffset vb.attributes ia + vb.view.stride * iVertex +
          attr.format.size * iComponent))) attr.format.count (fun a => by simp)
      (List.range vb.view.count) v c v (List.get?_range hv) hc
    rw [hgrid, List.get?_map, List.get?_range hc]
    rfl

/-- the specification's synthetic decoder input: two vertices, twelve-byte
stride, one three-component four-byte-float attribute at offset zero, whose
source bytes encode the floats 1, 2, 3, 4, 5, 6. -/
def floatBuf : List ℕ :=
  [0, 0, 128, 63, 0, 0, 0, 64, 0, 0, 64, 64, 0, 0, 128, 64, 0, 0, 160, 64, 0, 0, 192, 64]

/-- the single three-float attribute descriptor of the synthetic bundle. -/
def floatAttr : CAttribute :=
  { name := "a_position"
    format := { kind := FormatKind.kFloat, size := 4, count := 3, normalized := false } }

/-- the synthetic vertex bundle descriptor. -/
def floatBundle : IVertexBundle :=
  { view := { offset := 0, stride := 12, count := 2 }
    attributes := [floatAttr] }

/-- the decoded attribute value of the synthetic bundle: the dense array
[1, 2, 3, 4, 5, 6], a byte-exact round trip of the source floats. -/
def floatAV : AttributeValue :=
  { attrib := floatAttr, data := [1, 2, 3, 4, 5, 6] }

/-- evaluation of the decoder on the synthetic bundle. -/
theorem decodeBundles_floatBuf_eval :
    (CocosMesh.decodeBundles floatBuf [floatBundle]).get? 0 = some [floatAV] := by
  simp only [CocosMesh.decodeBundles, CocosMesh.decodeBundle, floatBuf, floatBundle, floatAttr,
    floatAV, readScalar, decodeFloat32, readUIntLE, getOffset, toSigned, List.enum, List.map,
    List.get?_cons_zero]
  norm_num [List.range_succ, List.flatMap_cons, readUIntLE]

/-- C7 witness: decoding the synthetic two-vertex bundle yields the dense
array [1,2,3,4,5,6]; slot 1*3+2 holds the scalar decoded at byte position
0 + 0 + 12*1 + 4*2 = 20 (the float 6). -/
theorem C7_decoder_witness :
    ([floatBundle] : List IVertexBundle).get? 0 = some floatBundle ∧
    floatBundle.attributes.get? 0 = some floatAttr ∧
    (CocosMesh.decodeBundles floatBuf [floatBundle]).get? 0 = some [floatAV] ∧
    ([floatAV] : List AttributeValue).get? 0 = some floatAV ∧
    1 < floatBundle.view.count ∧ 2 < floatAttr.format.count ∧
    (floatAV.attrib = floatAttr ∧
     floatAV.data.length = floatBundle.view.count * floatAttr.format.count ∧
     floatAV.data.get? (1 * floatAttr.format.count + 2) =
       some (readScalar floatAttr.format floatBuf
         (floatBundle.view.offset + getOffset floatBundle.attributes 0 +
          floatBundle.view.stride * 1 + floatAttr.format.size * 2))) :=
  ⟨rfl, rfl, decodeBundles_floatBuf_eval, rfl, by decide, by decide,
   C7_interleaved_decoder_dense floatBuf [floatBundle] 0 0 1 2 floatBundle floatAttr
     [floatAV] floatAV rfl rfl decodeBundles_floatBuf_eval rfl (by decide) (by decide)⟩

/-- C10: the `minPosition` and `maxPosition` setters rebuild only the spine
through `data[5][0][3]` and, inside it, replace exactly the positional array
at index 3 (respectively 6), writing `v.x`, `v.y`, `v.z` into its elements
1, 2 and 3; element 0 of that array is unchanged, and — as the two nested
`List.set` equations say — every other index at every level of the document
keeps its previous value. -/
theorem C10_position_setters_frame (data : JValue) (v : CVec3)
    (L L5 L50 L503 lmin lmax : List JValue)
    (h0 : data = JValue.jarr L)
    (h5 : L.get? 5 = some (JValue.jarr L5))
    (h50 : L5.get? 0 = some (JValue.jarr L50))
    (h503 : L50.get? 3 = some (JValue.jarr L503))
    (hmin : L503.get? 3 = some (JValue.jarr lmin))
    (hmax : L503.get? 6 = some (JValue.jarr lmax))
    (hminlen : 4 ≤ lmin.length) (hmaxlen : 4 ≤ lmax.length) :
    CocosMeshMeta.setMinPosition data v =
      JValue.jarr (L.set 5 (JValue.jarr (L5.set 0 (JValue.jarr (L50.set 3 (JValue.jarr
        (L503.set 3 (JValue.jarr
          (((lmin.set 1 (JValue.jnum v.x)).set 2 (JValue.jnum v.y)).set 3
            (JValue.jnum v.z)))))))))) ∧
    CocosMeshMeta.setMaxPosition data v =
      JValue.jarr (L.set 5 (JValue.jarr (L5.set 0 (JValue.jarr (L50.set 3 (JValue.jarr
        (L503.set 6 (JValue.jarr
          (((lmax.set 1 (JValue.jnum v.x)).set 2 (JValue.jnum v.y)).set 3
            (JValue.jnum v.z)))))))))) ∧
    (((lmin.set 1 (JValue.jnum v.x)).set 2 (JValue.jnum v.y)).set 3 (JValue.jnum v.z)).get? 0 =
      lmin.get? 0 ∧
    (((lmin.set 1 (JValue.jnum v.x)).set 2 (JValue.jnum v.y)).set 3 (JValue.jnum v.z)).get? 1 =
      some (JValue.jnum v.x) ∧
    (((lmin.set 1 (JValue.jnum v.x)).set 2 (JValue.jnum v.y)).set 3 (JValue.jnum v.z)).get? 2 =
      some (JValue.jnum v.y) ∧
    (((lmin.set 1 (JValue.jnum v.x)).set 2 (JValue.jnum v.y)).set 3 (JValue.jnum v.z)).get? 3 =
      some (JValue.jnum v.z) ∧
    (((lmax.set 1 (JValue.jnum v.x)).set 2 (JValue.jnum v.y)).set 3 (JValue.jnum v.z)).get? 0 =
      lmax.get? 0 ∧
    (((lmax.set 1 (JValue.jnum v.x)).set 2 (JValue.jnum v.y)).set 3 (JValue.jnum v.z)).get? 1 =
      some (JValue.jnum v.x) ∧
    (((lmax.set 1 (JValue.jnum v.x)).set 2 (JValue.jnum v.y)).set 3 (JValue.jnum v.z)).get? 2 =
      some (JValue.jnum v.y) ∧
    (((lmax.set 1 (JValue.jnum v.x)).set 2 (JValue.jnum v.y)).set 3 (JValue.jnum v.z)).get? 3 =
      some (JValue.jnum v.z) := by
  subst h0
  refine ⟨?_, ?_, ?_, ?_, ?_, ?_, ?_, ?_, ?_, ?_⟩
  · unfold CocosMeshMeta.setMinPosition
    simp only [JValue.updateAt, h5, h50, h503, hmin, JValue.setIdx]
  · unfold CocosMeshMeta.setMaxPosition
    simp only [JValue.updateAt, h5, h50, h503, hmax, JValue.setIdx]
  · rw [List.get?_set_ne _ _ (by omega), List.get?_set_ne _ _ (by omega),
      List.get?_set_ne _ _ (by omega)]
  · rw [List.get?_set_ne _ _ (by omega), List.get?_set_ne _ _ (by omega),
      List.get?_set_eq_of_lt _ (by (try simp only [List.length_set]); omega)]
  · rw [List.get?_set_ne _ _ (by omega),
      List.get?_set_eq_of_lt _ (by (try simp only [List.length_set]); omega)]
  · rw [List.get?_set_eq_of_lt _ (by (try simp only [List.length_set]); omega)]
  · rw [List.get?_set_ne _ _ (by omega), List.get?_set_ne _ _ (by omega),
      List.get?_set_ne _ _ (by omega)]
  · rw [List.get?_set_ne _ _ (by omega), List.get?_set_ne _ _ (by omega),
      List.get?_set_eq_of_lt _ (by (try simp only [List.length_set]); omega)]
  · rw [List.get?_set_ne _ _ (by omega),
      List.get?_set_eq_of_lt _ (by (try simp only [List.length_set]); omega)]
  · rw [List.get?_set_eq_of_lt _ (by (try simp only [List.length_set]); omega)]

/-- the minPosition array of the concrete metadata document. -/
def cMin : List JValue := [JValue.jnum 7, JValue.jnum 0, JValue.jnum 0, JValue.jnum 0]

/-- the maxPosition array of the concrete metadata document. -/
def cMax : List JValue := [JValue.jnum 8, JValue.jnum 0, JValue.jnum 0, JValue.jnum 0]

/-- the `getBin()` array of the concrete metadata document (index 3 holds the
min array, index 6 the max array). -/
def c503 : List JValue :=
  [JValue.jnull, JValue.jnull, JValue.jnull, JValue.jarr cMin, JValue.jnull, JValue.jnull,
   JValue.jarr cMax]

/-- `data[5][0]` of the concrete metadata document. -/
def c50 : List JValue := [JValue.jnull, JValue.jnull, JValue.jnull, JValue.jarr c503]

/-- `data[5]` of the concrete metadata document. -/
def c5 : List JValue := [JValue.jarr c50]

/-- the root array of the concrete metadata document. -/
def cRoot : List JValue :=
  [JValue.jnull, JValue.jnull, JValue.jnull, JValue.jnull, JValue.jnull, JValue.jarr c5]

/-- the concrete parsed metadata document. -/
def metaDoc : JValue := JValue.jarr cRoot

/-- the vector written by the setters in the concrete test. -/
def cVec : CVec3 := { x := 1, y := 2, z := 3 }

/-- C10 witness: on the concrete document both setters rebuild only the
spine to their positional array and write (1,2,3) into its elements 1, 2, 3,
leaving element 0 and every other index unchanged. -/
theorem C10_setters_witness :
    metaDoc = JValue.jarr cRoot ∧
    cRoot.get? 5 = some (JValue.jarr c5) ∧
    c5.get? 0 = some (JValue.jarr c50) ∧
    c50.get? 3 = some (JValue.jarr c503) ∧
    c503.get? 3 = some (JValue.jarr cMin) ∧
    c503.get? 6 = some (JValue.jarr cMax) ∧
    4 ≤ cMin.length ∧ 4 ≤ cMax.length ∧
    (CocosMeshMeta.setMinPosition metaDoc cVec =
      JValue.jarr (cRoot.set 5 (JValue.jarr (c5.set 0 (JValue.jarr (c50.set 3 (JValue.jarr
        (c503.set 3 (JValue.jarr
          (((cMin.set 1 (JValue.jnum cVec.x)).set 2 (JValue.jnum cVec.y)).set 3
            (JValue.jnum cVec.z)))))))))) ∧
    CocosMeshMeta.setMaxPosition metaDoc cVec =
      JValue.jarr (cRoot.set 5 (JValue.jarr (c5.set 0 (JValue.jarr (c50.set 3 (JValue.jarr
        (c503.set 6 (JValue.jarr
          (((cMax.set 1 (JValue.jnum cVec.x)).set 2 (JValue.jnum cVec.y)).set 3
            (JValue.jnum cVec.z)))))))))) ∧
    (((cMin.set 1 (JValue.jnum cVec.x)).set 2 (JValue.jnum cVec.y)).set 3
        (JValue.jnum cVec.z)).get? 0 = cMin.get? 0 ∧
    (((cMin.set 1 (JValue.jnum cVec.x)).set 2 (JValue.jnum cVec.y)).set 3
        (JValue.jnum cVec.z)).get? 1 = some (JValue.jnum cVec.x) ∧
    (((cMin.set 1 (JValue.jnum cVec.x)).set 2 (JValue.jnum cVec.y)).set 3
        (JValue.jnum cVec.z)).get? 2 = some (JValue.jnum cVec.y) ∧
    (((cMin.set 1 (JValue.jnum cVec.x)).set 2 (JValue.jnum cVec.y)).set 3
        (JValue.jnum cVec.z)).get? 3 = some (JValue.jnum cVec.z) ∧
    (((cMax.set 1 (JValue.jnum cVec.x)).set 2 (JValue.jnum cVec.y)).set 3
        (JValue.jnum cVec.z)).get? 0 = cMax.get? 0 ∧
    (((cMax.set 1 (JValue.jnum cVec.x)).set 2 (JValue.jnum cVec.y)).set 3
        (JValue.jnum cVec.z)).get? 1 = some (JValue.jnum cVec.x) ∧
    (((cMax.set 1 (JValue.jnum cVec.x)).set 2 (JValue.jnum cVec.y)).set 3
        (JValue.jnum cVec.z)).get? 2 = some (JValue.jnum cVec.y) ∧
    (((cMax.set 1 (JValue.jnum cVec.x)).set 2 (JValue.jnum cVec.y)).set 3
        (JValue.jnum cVec.z)).get? 3 = some (JValue.jnum cVec.z)) :=
  ⟨rfl, rfl, rfl, rfl, rfl, rfl, by decide, by decide,
   C10_position_setters_frame metaDoc cVec cRoot c5 c50 c503 cMin cMax
     rfl rfl rfl rfl rfl rfl (by decide) (by decide)⟩
